import Mathlib

/-! Shallow embedding of the arch-ide rust-server build orchestrator
(src/rust-server/src/{program.rs, build_tracker.rs, routes/build.rs, routes/deploy.rs}).

Strings are modelled as lists of characters (`Str`); Rust `str::contains` becomes
`containsStr`, `String::len` becomes list length (the submitted paths that pass
validation are ASCII, where byte length and character count agree), and the
Unicode classes `\w` / `char::is_alphanumeric` are modelled by their ASCII
fragments, which is exact on every input the validation regex can accept. -/

abbrev Str := List Char

namespace ArchServer

/-- Substring test mirroring Rust `str::contains` (also used for the regex-adjacent
checks `path.contains("..")` and `path.contains("//")` in program.rs). -/
def containsStr : Str → Str → Bool
  | [], needle => needle.isEmpty
  | c :: rest, needle => needle.isPrefixOf (c :: rest) || containsStr rest needle

/-! ### Workspace manager: file-set validation and staging (program.rs, `build`) -/

/-- `MAX_FILE_AMOUNT` in program.rs. -/
def maxFileAmount : Nat := 64

/-- `MAX_PATH_LENGTH` in program.rs. -/
def maxPathLength : Nat := 128

/-- `PROGRAMS_DIR` in program.rs. -/
def programsDir : Str := ("programs").data

/-- A character of the regex class word, slash or dash (ASCII fragment of `\w`). -/
def wordSlashDash (c : Char) : Bool := c.isAlphanum || c = '_' || c = '/' || c = '-'

/-- Matches a possibly empty run of class characters (word, slash, dash)
followed by the literal `.rs` at the end of the string. Since `.` is not in
the class, the regex has exactly this backtrack-free reading. -/
def bodyThenRs : Str → Bool
  | '.' :: 'r' :: 's' :: [] => true
  | c :: rest => wordSlashDash c && bodyThenRs rest
  | [] => false

/-- Whole-string anchored match of the program.rs path regex: the literal
prefix slash-src-slash, then one or more class characters, then `.rs`. -/
def allowedPathMatch : Str → Bool
  | '/' :: 's' :: 'r' :: 'c' :: '/' :: c :: rest => wordSlashDash c && bodyThenRs rest
  | _ => false

/-- The per-path validity test from program.rs `build` (regex match, length
bound, no parent traversal, no empty segment). -/
def validPath (p : Str) : Bool :=
  allowedPathMatch p && p.length ≤ maxPathLength
    && !containsStr p ("..").data && !containsStr p ("//").data

/-- `files: Vec<[String; 2]>` — ordered (path, content) pairs. -/
abbrev Files := List (Str × Str)

/-- Error message `anyhow!("Exceeded maximum file amount({MAX_FILE_AMOUNT})")`. -/
def maxFilesMsg : Str := ("Exceeded maximum file amount(64)").data

/-- Error message `anyhow!("Invalid path")`. -/
def invalidPathMsg : Str := ("Invalid path").data

/-- `program_name.replace(|c| !c.is_alphanumeric(), "_")` (ASCII fragment of
`char::is_alphanumeric`). -/
def sanitize (s : Str) : Str := s.map fun c => if c.isAlphanum then c else '_'

/-- A filesystem effect performed by the staging phase of `build`. -/
inductive FsOp
  | createDir (path : Str)
  | writeFile (path : Str) (content : Str)
deriving DecidableEq

/-- `path.trim_start_matches('/')`. -/
def trimLeadingSlashes (p : Str) : Str := p.dropWhile (· = '/')

/-- `Path::parent` on the clean relative paths staged here: everything before
the final `/`-separated component. -/
def parentDir (p : Str) : Str := ((p.reverse.dropWhile (· ≠ '/')).drop 1).reverse

/-- The rendered program-specific Cargo.toml: program.rs does
`CARGO_TOML_TEMPLATE.replace("{}", &safe_program_name)` and the template holds a
single `\x7b\x7d` placeholder (in `name = "\x7b\x7d"`), so the result is the text before
the placeholder, the sanitized name, then the rest of the fixed template. -/
def cargoTomlRendered (safeName : Str) : Str :=
  ("[package]\nname = \x22").data ++ safeName ++ ("\x22\nversion = \x220.1.0\x22\nedition = \x222021\x22\n").data
    ++ ("\n[lib]\ncrate-type = [\x22cdylib\x22]\n\n[dependencies]\narch_program = \x220.5.13\x22\n").data
    ++ ("apl-associated-token-account = \x220.5.13\x22\napl-token = \x220.5.13\x22\napl-token-metadata = \x220.5.13\x22\n").data
    ++ ("\n# Core serialization/encoding\nborsh = \x22^1.5.3\x22\nbase64 = \x7b version = \x22=0.22.1\x22, default-features = false, features = [\x22alloc\x22] \x7d\n").data
    ++ ("hex = \x7b version = \x22=0.4.3\x22, default-features = false \x7d\nsha256 = \x7b version = \x22=1.5.0\x22, default-features = false \x7d\n").data
    ++ ("\n# Error handling\nthiserror = \x22^1.0.57\x22\n\n# Serialization\nserde = \x7b version = \x22^1.0.216\x22, features = [\x22derive\x22], default-features = false \x7d\n").data
    ++ ("\n# Memory casting utilities\nbytemuck = \x7b version = \x22^1.20.0\x22, features = [\x22derive\x22] \x7d\n").data
    ++ ("\n[profile.release]\noverflow-checks = true\nincremental = true\ncodegen-units = 256\nopt-level = 1\nlto = false\ndebug = false\n").data
    ++ ("\n[profile.release.build-override]\nopt-level = 1\nincremental = true\ncodegen-units = 256\n").data

/-- Staging phase of program.rs `build`, up to the point where the external
toolchain takes over: validates the file set, then (in source order) creates
the job directory tree, writes every submitted file, writes the rendered
Cargo.toml and creates the shared target directory. The result carries the
ordered trace of filesystem effects; an error carries the effects performed
before failing (the source performs none before validation). -/
def build_stage (uuid program_name : Str) (files : Files) :
    Except (Str × List FsOp) (List FsOp × Str) :=
  if files.length > maxFileAmount then
    .error (maxFilesMsg, [])
  else if !(files.all fun f => validPath f.1) then
    .error (invalidPathMsg, [])
  else
    let programPath := programsDir ++ '/' :: uuid
    let dirOps : List FsOp :=
      [.createDir programPath,
       .createDir (programPath ++ ("/src").data),
       .createDir (programPath ++ ("/target/deploy").data)]
    let fileOps : List FsOp :=
      files.flatMap fun f =>
        let filePath := programPath ++ '/' :: trimLeadingSlashes f.1
        [.createDir (parentDir filePath), .writeFile filePath f.2]
    let safeName := sanitize program_name
    let manifestOps : List FsOp :=
      [.writeFile (programPath ++ ("/Cargo.toml").data) (cargoTomlRendered safeName),
       .createDir (programsDir ++ ("/target").data)]
    .ok (dirOps ++ fileOps ++ manifestOps, safeName)

/-! ### Toolchain runner: stream capture and success classification
(program.rs lines 455–535, routes/build.rs lines 54–90) -/

/-- Outcome of the spawned `cargo-build-sbf` child process: the lines read from
each pipe, in arrival order per stream, and whether `ExitStatus::success()`. -/
structure ProcResult where
  stdoutLines : List Str
  stderrLines : List Str
  exitSuccess : Bool

/-- The accumulation loop `push_str(&line); push('\n')` over a stream's lines. -/
def accLines : Str → List Str → Str
  | acc, [] => acc
  | acc, l :: ls => accLines (acc ++ l ++ ['\n']) ls

/-- The marker scanned for in program.rs: `"Finished release"`. -/
def markerStr : Str := ("Finished release").data

/-- `build_succeeded` in program.rs: the marker occurs in the captured stdout
or in the captured stderr. -/
def markerFound (pr : ProcResult) : Bool :=
  containsStr (accLines [] pr.stdoutLines) markerStr
    || containsStr (accLines [] pr.stderrLines) markerStr

/-- The diagnostics string program.rs `build` returns to its caller: the
accumulated stderr lines, with the pre-build `cargo tree` diagnostics appended
(followed by a newline) only when the exit status is a failure, the marker was
not found, and those diagnostics are non-empty. The accumulated stdout is
never part of the returned string. -/
def deliveredStderr (pr : ProcResult) (getrandomDiag : Str) : Str :=
  let stderrAcc := accLines [] pr.stderrLines
  if !pr.exitSuccess && !markerFound pr then
    if !getrandomDiag.isEmpty then stderrAcc ++ getrandomDiag ++ ['\n'] else stderrAcc
  else stderrAcc

/-- The success test of routes/build.rs applied to the returned stderr text:
contains `"Finished"`, contains `"release"` or a backtick-quoted `release`, and
does not contain `"error: could not compile"`. -/
def routeClassify (stderr : Str) : Bool :=
  containsStr stderr ("Finished").data
    && (containsStr stderr ("release").data || containsStr stderr ("\x60release\x60").data)
    && !containsStr stderr ("error: could not compile").data

/-- End-to-end classification of a spawn-successful build: routes/build.rs
classifies the stderr text returned by program.rs `build`. -/
def finalSuccess (pr : ProcResult) (getrandomDiag : Str) : Bool :=
  routeClassify (deliveredStderr pr getrandomDiag)

/-! ### Job tracker (build_tracker.rs)
The `HashMap<String, BuildInfo>` behind the `RwLock` is modelled as an
association list whose only observation is `mapGet` (first match); `insert` is
modelled by shadowing cons, which agrees with hash-map replacement under that
observation. `chrono::Utc::now()` values are passed in as explicit `Nat`
timestamps. -/

inductive BuildStatus
  | queued
  | building
  | success
  | failed
deriving DecidableEq

structure BuildInfo where
  uuid : Str
  program_name : Str
  status : BuildStatus
  stderr : Option Str
  started_at : Nat
  completed_at : Option Nat
deriving DecidableEq

abbrev TrackerMap := List (Str × BuildInfo)

/-- `HashMap::get` followed by `cloned()`. -/
def mapGet : TrackerMap → Str → Option BuildInfo
  | [], _ => none
  | (k, v) :: rest, u => if k = u then some v else mapGet rest u

/-- `BuildTracker::start_build`: unconditionally inserts a fresh `Building`
entry for the uuid (replacing any existing entry). -/
def start_build (m : TrackerMap) (uuid program_name : Str) (now : Nat) : TrackerMap :=
  (uuid, ⟨uuid, program_name, .building, none, now, none⟩) :: m

/-- The field update `complete_build` applies through `get_mut`. -/
def completeUpdate (info : BuildInfo) (stderr program_name : Str) (success : Bool)
    (now : Nat) : BuildInfo :=
  { info with
      status := if success then .success else .failed
      stderr := some stderr
      program_name := program_name
      completed_at := some now }

/-- `BuildTracker::complete_build`: if the uuid is present the entry's status,
stderr, program name and completion time are overwritten; an absent uuid is a
silent no-op (the map's entries for other keys are untouched). -/
def complete_build : TrackerMap → Str → Str → Str → Bool → Nat → TrackerMap
  | [], _, _, _, _, _ => []
  | (k, v) :: rest, uuid, stderr, program_name, success, now =>
    (k, if k = uuid then completeUpdate v stderr program_name success now else v)
      :: complete_build rest uuid stderr program_name success now

/-- One tracker mutation, for reasoning about operation sequences. -/
inductive TrackerOp
  | start (uuid program_name : Str) (now : Nat)
  | complete (uuid stderr program_name : Str) (success : Bool) (now : Nat)

def TrackerOp.uuid : TrackerOp → Str
  | .start u _ _ => u
  | .complete u _ _ _ _ => u

def applyOp (m : TrackerMap) : TrackerOp → TrackerMap
  | .start u p t => start_build m u p t
  | .complete u s p b t => complete_build m u s p b t

def applyOps (m : TrackerMap) : List TrackerOp → TrackerMap
  | [] => m
  | op :: ops => applyOps (applyOp m op) ops

/-! ### Build routes (routes/build.rs) -/

/-- `format!("\x7b:?\x7d", status).to_lowercase()` as used by `build_status`. -/
def statusString : BuildStatus → Str
  | .queued => ("queued").data
  | .building => ("building").data
  | .success => ("success").data
  | .failed => ("failed").data

/-- The status string `build_status` reports for a uuid: the lowercased debug
form of the tracked status, or `"not_found"` when the tracker has no entry. -/
def build_status (m : TrackerMap) (uuid : Str) : Str :=
  match mapGet m uuid with
  | some info => statusString info.status
  | none => ("not_found").data

/-- An ASCII hex digit (`Uuid::try_parse` accepts either case). -/
def isHexDigit (c : Char) : Bool :=
  c.isDigit || ('a' ≤ c && c ≤ 'f') || ('A' ≤ c && c ≤ 'F')

/-- Split at every dash. -/
def splitDash : Str → List Str
  | [] => [[]]
  | '-' :: rest => [] :: splitDash rest
  | c :: rest =>
    match splitDash rest with
    | [] => [[c]]
    | g :: gs => (c :: g) :: gs

/-- `Uuid::try_parse`, modelled on its hyphenated 8-4-4-4-12 form (the uuid
crate also admits simple/braced/urn spellings; the claims depend only on the
accept/reject branch structure of the route, not on which strings parse). -/
def uuid_try_parse (s : Str) : Bool :=
  match splitDash s with
  | [a, b, c, d, e] =>
    a.length = 8 && b.length = 4 && c.length = 4 && d.length = 4 && e.length = 12
      && (a ++ b ++ c ++ d ++ e).all isHexDigit
  | _ => false

/-- The JSON body of a successful submission response. -/
structure BuildResponse where
  uuid : Str
  program_name : Str
  status : Str
deriving DecidableEq

/-- Parameters of the background task `tokio::spawn`ed by the route. -/
structure PendingBuild where
  uuid : Str
  program_name : Str
  files : Files

/-- Everything the `build` route handler has produced at the moment it
returns: the response, the tracker state (already mutated by the awaited
`start_build`), and the not-yet-run background task, if one was spawned. -/
structure SubmitOutcome where
  response : Except Str BuildResponse
  tracker : TrackerMap
  pending : Option PendingBuild

/-- The `build` route handler (routes/build.rs, lines 32–97) up to its return:
an invalid client-supplied uuid is rejected before anything is tracked;
otherwise the job is registered via `start_build` and the background task is
spawned, and the handler answers with status `"building"`. `freshUuid` stands
for the `Uuid::new_v4()` draw used when the client supplies none. -/
def submit_build (tracker : TrackerMap) (payloadUuid : Option Str) (freshUuid : Str)
    (program_name : Str) (files : Files) (now : Nat) : SubmitOutcome :=
  let accept := fun (u : Str) =>
    SubmitOutcome.mk (.ok ⟨u, program_name, ("building").data⟩)
      (start_build tracker u program_name now) (some ⟨u, program_name, files⟩)
  match payloadUuid with
  | some u => if uuid_try_parse u then accept u else ⟨.error ("Invalid UUID").data, tracker, none⟩
  | none => accept freshUuid

/-- The `Ok` arm of the background task (routes/build.rs, lines 60–80):
classify the stderr text returned by program.rs `build` and complete the job
accordingly. -/
def bgFinalize (m : TrackerMap) (uuid program_name : Str) (pr : ProcResult)
    (getrandomDiag : Str) (now : Nat) : TrackerMap :=
  complete_build m uuid (deliveredStderr pr getrandomDiag) (sanitize program_name)
    (routeClassify (deliveredStderr pr getrandomDiag)) now

/-! ### Artifact resolver (program.rs `get_binary`, `download_from_gcs`,
`upload_to_gcs`; routes/deploy.rs `deploy`) -/

/-- Result of one `client.object().download` network call. -/
inductive GcsDownload
  | ok (data : List Nat)
  | err (msg : Str)

/-- The environment `get_binary` runs against: whether `USE_GCS` is set, the
local `programs` tree restricted to what the function reads (for each job
directory, the binaries present in `target/deploy` with their bytes, in
directory-iteration order), and the remote store's response keyed by object
name. -/
structure ResolveEnv where
  useGcs : Bool
  localDirs : List (Str × List (Str × List Nat))
  gcsDownload : Str → GcsDownload

def alistGet {α : Type} : List (Str × α) → Str → Option α
  | [], _ => none
  | (k, v) :: rest, u => if k = u then some v else alistGet rest u

/-- Step (a): the binary at the exact uuid path. -/
def localExact (env : ResolveEnv) (uuid fname : Str) : Option (List Nat) :=
  match alistGet env.localDirs uuid with
  | some fs => alistGet fs fname
  | none => none

/-- Step (b): scan every job directory for the binary file name. -/
def scanDirs : List (Str × List (Str × List Nat)) → Str → Option (List Nat)
  | [], _ => none
  | (_, fs) :: rest, fname =>
    match alistGet fs fname with
    | some bytes => some bytes
    | none => scanDirs rest fname

/-- The GCS object key `binaries/\x7buuid\x7d/\x7bname\x7d.so`. -/
def objectName (uuid safeName : Str) : Str :=
  ("binaries/").data ++ uuid ++ '/' :: safeName ++ (".so").data

/-- Prefix of the error `download_from_gcs` wraps a failed download in. -/
def dlFailMsgHead : Str := ("Failed to download from GCS: ").data

inductive IoErrKind
  | notFound
  | other
deriving DecidableEq

structure IoErr where
  kind : IoErrKind
  msg : Str
deriving DecidableEq

/-- What a `get_binary` call produced, plus whether it reached the point of
performing the remote-store network call. -/
structure ResolveOutcome where
  result : Except IoErr (List Nat)
  remoteAttempted : Bool

/-- program.rs `get_binary`: exact uuid path, then the scan over all job
directories, then unconditionally the GCS download, whose failure is wrapped
as an io error of kind `Other`. The `USE_GCS` flag is never consulted. -/
def get_binary (env : ResolveEnv) (uuid program_name : Str) : ResolveOutcome :=
  match localExact env uuid (sanitize program_name ++ (".so").data) with
  | some bytes => ⟨.ok bytes, false⟩
  | none =>
    match scanDirs env.localDirs (sanitize program_name ++ (".so").data) with
    | some bytes => ⟨.ok bytes, false⟩
    | none =>
      match env.gcsDownload (objectName uuid (sanitize program_name)) with
      | .ok data => ⟨.ok data, true⟩
      | .err m => ⟨.error ⟨.other, dlFailMsgHead ++ m⟩, true⟩

/-- The message deploy substitutes for an io `NotFound`. -/
def notBuiltMsg : Str := ("Program is not built").data

/-- routes/deploy.rs `deploy`: only io kind `NotFound` is rewritten to
`"Program is not built"`; every other error propagates with its own message. -/
def deploy (env : ResolveEnv) (uuid program_name : Str) : Except Str (List Nat) :=
  match (get_binary env uuid program_name).result with
  | .ok bytes => .ok bytes
  | .error e =>
    match e.kind with
    | .notFound => .error notBuiltMsg
    | .other => .error e.msg

/-- The upload gate in program.rs `build` (line 517–529): an upload task is
spawned only when the binary exists and `USE_GCS` is set. -/
def publishSpawned (useGcs binaryExists : Bool) : Bool := binaryExists && useGcs

/-! ### Infrastructure lemmas -/

theorem isPrefixOf_iff_exists : ∀ (n s : Str), n.isPrefixOf s = true ↔ ∃ t, s = n ++ t
  | [], s => by simp [List.isPrefixOf]
  | c :: n, [] => by simp [List.isPrefixOf]
  | c :: n, d :: s => by
    simp only [List.isPrefixOf, Bool.and_eq_true, beq_iff_eq]
    constructor
    · rintro ⟨rfl, h⟩
      obtain ⟨t, rfl⟩ := (isPrefixOf_iff_exists n s).mp h
      exact ⟨t, rfl⟩
    · rintro ⟨t, ht⟩
      cases ht
      exact ⟨rfl, (isPrefixOf_iff_exists n (n ++ t)).mpr ⟨t, rfl⟩⟩

theorem containsStr_iff_exists : ∀ (s n : Str), containsStr s n = true ↔ ∃ x y, s = x ++ n ++ y
  | [], n => by
    simp only [containsStr, List.isEmpty_iff]
    constructor
    · rintro rfl; exact ⟨[], [], rfl⟩
    · rintro ⟨x, y, h⟩
      rcases x with _ | ⟨c, x⟩
      · rcases n with _ | ⟨c, n⟩
        · rfl
        · exact absurd h (by simp)
      · exact absurd h (by simp)
  | c :: rest, n => by
    simp only [containsStr, Bool.or_eq_true]
    constructor
    · rintro (h | h)
      · obtain ⟨t, ht⟩ := (isPrefixOf_iff_exists n (c :: rest)).mp h
        exact ⟨[], t, by simpa using ht⟩
      · obtain ⟨x, y, hxy⟩ := (containsStr_iff_exists rest n).mp h
        exact ⟨c :: x, y, by simp [hxy]⟩
    · rintro ⟨x, y, hxy⟩
      rcases x with _ | ⟨d, x⟩
      · exact Or.inl ((isPrefixOf_iff_exists n (c :: rest)).mpr ⟨y, by simpa using hxy⟩)
      · refine Or.inr ((containsStr_iff_exists rest n).mpr ?_)
        simp only [List.cons_append] at hxy
        injection hxy with h1 h2
        exact ⟨x, y, h2⟩

/-- If `big` occurs in `s` and `sub` occurs (at a concrete split) inside `big`,
then `sub` occurs in `s`. -/
theorem containsStr_mono (s big sub x y : Str) (hbig : big = x ++ sub ++ y)
    (h : containsStr s big = true) : containsStr s sub = true := by
  obtain ⟨a, b, hab⟩ := (containsStr_iff_exists s big).mp h
  refine (containsStr_iff_exists s sub).mpr ⟨a ++ x, y ++ b, ?_⟩
  subst hbig; subst hab; simp

theorem accLines_eq : ∀ (ls : List Str) (acc : Str),
    accLines acc ls = acc ++ (ls.map fun l => l ++ ['\n']).flatten
  | [], acc => by simp [accLines]
  | l :: ls, acc => by
    simp only [accLines, accLines_eq ls, List.map_cons, List.flatten_cons, List.append_assoc]

theorem mapGet_start_self (m : TrackerMap) (u p : Str) (t : Nat) :
    mapGet (start_build m u p t) u = some ⟨u, p, .building, none, t, none⟩ := by
  simp [start_build, mapGet]

theorem mapGet_start_ne (m : TrackerMap) (u' u p : Str) (t : Nat) (h : u' ≠ u) :
    mapGet (start_build m u' p t) u = mapGet m u := by
  simp [start_build, mapGet, h]

theorem mapGet_complete : ∀ (m : TrackerMap) (u s p : Str) (b : Bool) (t : Nat),
    mapGet (complete_build m u s p b t) u
      = (mapGet m u).map fun i => completeUpdate i s p b t
  | [], _, _, _, _, _ => rfl
  | (k, v) :: rest, u, s, p, b, t => by
    have ih := mapGet_complete rest u s p b t
    by_cases hk : k = u
    · subst hk; simp [complete_build, mapGet]
    · simp [complete_build, mapGet, hk, ih]

theorem mapGet_complete_ne : ∀ (m : TrackerMap) (u' u s p : Str) (b : Bool) (t : Nat),
    u' ≠ u → mapGet (complete_build m u' s p b t) u = mapGet m u
  | [], _, _, _, _, _, _, _ => rfl
  | (k, v) :: rest, u', u, s, p, b, t, h => by
    have ih := mapGet_complete_ne rest u' u s p b t h
    by_cases hk : k = u'
    · subst hk
      simp [complete_build, mapGet, h, ih]
    · by_cases hku : k = u
      · subst hku; simp [complete_build, mapGet, hk]
      · simp [complete_build, mapGet, hk, hku, ih]

theorem complete_build_absent : ∀ (m : TrackerMap) (u s p : Str) (b : Bool) (t : Nat),
    mapGet m u = none → complete_build m u s p b t = m
  | [], _, _, _, _, _, _ => rfl
  | (k, v) :: rest, u, s, p, b, t, h => by
    simp only [mapGet] at h
    by_cases hk : k = u
    · simp [hk] at h
    · have ih := complete_build_absent rest u s p b t (by simpa [hk] using h)
      simp [complete_build, hk, ih]

theorem mapGet_applyOp_isSome (m : TrackerMap) (op : TrackerOp) (u : Str)
    (h : (mapGet m u).isSome = true) : (mapGet (applyOp m op) u).isSome = true := by
  cases op with
  | start u' p t =>
    by_cases hu : u' = u
    · subst hu; simp [applyOp, mapGet_start_self]
    · simpa [applyOp, mapGet_start_ne m u' u p t hu] using h
  | complete u' s p b t =>
    by_cases hu : u' = u
    · subst hu; simpa [applyOp, mapGet_complete] using h
    · simpa [applyOp, mapGet_complete_ne m u' u s p b t hu] using h

theorem mapGet_applyOp_avoid (m : TrackerMap) (op : TrackerOp) (u : Str)
    (h : op.uuid ≠ u) : mapGet (applyOp m op) u = mapGet m u := by
  cases op with
  | start u' p t => exact mapGet_start_ne m u' u p t h
  | complete u' s p b t => exact mapGet_complete_ne m u' u s p b t h

theorem mapGet_applyOps_avoid : ∀ (ops : List TrackerOp) (m : TrackerMap) (u : Str),
    (∀ op ∈ ops, TrackerOp.uuid op ≠ u) → mapGet (applyOps m ops) u = mapGet m u
  | [], _, _, _ => rfl
  | op :: ops, m, u, h => by
    have h1 : TrackerOp.uuid op ≠ u := h op (by simp)
    have h2 : ∀ o ∈ ops, TrackerOp.uuid o ≠ u := fun o ho => h o (by simp [ho])
    simp only [applyOps]
    rw [mapGet_applyOps_avoid ops (applyOp m op) u h2, mapGet_applyOp_avoid m op u h1]

theorem mapGet_applyOps_isSome : ∀ (ops : List TrackerOp) (m : TrackerMap) (u : Str),
    (mapGet m u).isSome = true → (mapGet (applyOps m ops) u).isSome = true
  | [], _, _, h => h
  | op :: ops, m, u, h =>
    mapGet_applyOps_isSome ops (applyOp m op) u (mapGet_applyOp_isSome m op u h)

theorem statusString_ne_notFound (st : BuildStatus) : statusString st ≠ ("not_found").data := by
  cases st <;> decide

theorem build_status_of_present (m : TrackerMap) (u : Str)
    (h : (mapGet m u).isSome = true) : build_status m u ≠ ("not_found").data := by
  unfold build_status
  cases hm : mapGet m u with
  | none => rw [hm] at h; simp at h
  | some info => exact statusString_ne_notFound info.status

/-! ### Claims -/

/-- C2: the claim that a terminal status is immutable fails on the code. After
`complete_build` records Success with diagnostics "ok" at time 1, a second
`complete_build` for the same job id applies in full: the status flips to
Failed, and the diagnostics, program name and completion timestamp are all
replaced by the second call's values. -/
theorem C2_counterexample :
    mapGet (complete_build (start_build [] ("j").data ("p").data 0)
        ("j").data ("ok").data ("p").data true 1) ("j").data
      = some ⟨("j").data, ("p").data, .success, some ("ok").data, 0, some 1⟩
    ∧ mapGet (complete_build (complete_build (start_build [] ("j").data ("p").data 0)
          ("j").data ("ok").data ("p").data true 1)
        ("j").data ("boom").data ("q").data false 2) ("j").data
      = some ⟨("j").data, ("q").data, .failed, some ("boom").data, 0, some 2⟩ := by
  decide

/-- C2 (amended): terminal states are not immutable. `complete_build` on a
registered job id — whatever its current status, terminal included —
overwrites the status, diagnostics, program name and completion timestamp with
the call's values (last writer wins); only a call for an unregistered id is a
no-op. -/
theorem C2_amended_overwrite (m : TrackerMap) (u s p : Str) (b : Bool) (t : Nat) :
    (∀ i, mapGet m u = some i →
      mapGet (complete_build m u s p b t) u
        = some { i with
                  status := (if b then BuildStatus.success else BuildStatus.failed)
                  stderr := some s
                  program_name := p
                  completed_at := some t })
    ∧ (mapGet m u = none → complete_build m u s p b t = m) := by
  constructor
  · intro i hi
    rw [mapGet_complete, hi]; rfl
  · exact complete_build_absent m u s p b t

/-- C2 witness: the amended overwrite law evaluated on a job already completed
as Success at time 1 and re-completed as Failed at time 5. -/
theorem C2_witness :
    mapGet (complete_build (complete_build (start_build [] ("j").data ("p").data 0)
        ("j").data ("ok").data ("p").data true 1)
      ("j").data ("d").data ("p").data false 5) ("j").data
      = some ⟨("j").data, ("p").data, .failed, some ("d").data, 0, some 5⟩ :=
  (C2_amended_overwrite (complete_build (start_build [] ("j").data ("p").data 0)
      ("j").data ("ok").data ("p").data true 1) ("j").data ("d").data ("p").data false 5).1
    ⟨("j").data, ("p").data, .success, some ("ok").data, 0, some 1⟩ (by decide)

/-- C10: `start_build` on an already-present job id — including one in a
terminal state — unconditionally replaces the whole entry: the status returns
to Building, the captured diagnostics and completion timestamp are cleared,
and the creation timestamp is reset, so later `mapGet` queries cannot observe
the prior result. -/
theorem C10_reregister_replaces (m : TrackerMap) (u p : Str) (t : Nat) (prior : BuildInfo)
    (h : mapGet m u = some prior) :
    mapGet (start_build m u p t) u = some ⟨u, p, .building, none, t, none⟩ :=
  mapGet_start_self m u p t

/-- C10 witness: re-registering over a completed (Success) entry yields a fresh
Building entry with cleared diagnostics and completion time. -/
theorem C10_witness :
    mapGet (start_build (complete_build (start_build [] ("j").data ("p").data 0)
        ("j").data ("d").data ("p").data true 1) ("j").data ("q").data 7) ("j").data
      = some ⟨("j").data, ("q").data, .building, none, 7, none⟩ :=
  C10_reregister_replaces (complete_build (start_build [] ("j").data ("p").data 0)
      ("j").data ("d").data ("p").data true 1) ("j").data ("q").data 7
    ⟨("j").data, ("p").data, .success, some ("d").data, 0, some 1⟩ (by decide)

theorem submit_build_ok (tracker : TrackerMap) (payloadUuid : Option Str)
    (freshUuid program_name : Str) (files : Files) (now : Nat) (resp : BuildResponse)
    (h : (submit_build tracker payloadUuid freshUuid program_name files now).response
      = .ok resp) :
    resp.status = ("building").data
      ∧ (submit_build tracker payloadUuid freshUuid program_name files now).tracker
          = start_build tracker resp.uuid program_name now := by
  cases payloadUuid with
  | none =>
    have hr := Except.ok.inj
      (show Except.ok (BuildResponse.mk freshUuid program_name (("building").data))
          = Except.ok resp from h)
    subst hr
    exact ⟨rfl, rfl⟩
  | some pu =>
    by_cases hp : uuid_try_parse pu = true
    · have hout : submit_build tracker (some pu) freshUuid program_name files now
          = SubmitOutcome.mk (.ok ⟨pu, program_name, ("building").data⟩)
              (start_build tracker pu program_name now)
              (some ⟨pu, program_name, files⟩) := by
        simp [submit_build, hp]
      rw [hout] at h ⊢
      have hr := Except.ok.inj h
      subst hr
      exact ⟨rfl, rfl⟩
    · have hout : submit_build tracker (some pu) freshUuid program_name files now
          = SubmitOutcome.mk (.error ("Invalid UUID").data) tracker none := by
        simp [submit_build, hp]
      rw [hout] at h
      exact absurd h (by simp)

/-- C6: for every admitted build request, the tracker returned by the route
handler (mutated by the awaited `start_build` before the background task is
spawned and before the handler returns) already holds the job in Building
state; a status query answers "building", keeps answering "building" under any
operations on other job ids, and never answers "not_found" under any tracker
operations at all. -/
theorem C6_registered_before_return (tracker : TrackerMap) (payloadUuid : Option Str)
    (freshUuid program_name : Str) (files : Files) (now : Nat) (resp : BuildResponse)
    (h : (submit_build tracker payloadUuid freshUuid program_name files now).response
      = .ok resp) :
    mapGet (submit_build tracker payloadUuid freshUuid program_name files now).tracker
        resp.uuid = some ⟨resp.uuid, program_name, .building, none, now, none⟩
    ∧ resp.status = ("building").data
    ∧ build_status (submit_build tracker payloadUuid freshUuid program_name files now).tracker
        resp.uuid = ("building").data
    ∧ (∀ ops : List TrackerOp, (∀ op ∈ ops, TrackerOp.uuid op ≠ resp.uuid) →
        build_status (applyOps
          (submit_build tracker payloadUuid freshUuid program_name files now).tracker ops)
          resp.uuid = ("building").data)
    ∧ (∀ ops : List TrackerOp,
        build_status (applyOps
          (submit_build tracker payloadUuid freshUuid program_name files now).tracker ops)
          resp.uuid ≠ ("not_found").data) := by
  obtain ⟨hstatus, htr⟩ :=
    submit_build_ok tracker payloadUuid freshUuid program_name files now resp h
  rw [htr]
  refine ⟨mapGet_start_self tracker resp.uuid program_name now, hstatus, ?_, ?_, ?_⟩
  · unfold build_status
    rw [mapGet_start_self]
    rfl
  · intro ops hops
    unfold build_status
    rw [mapGet_applyOps_avoid ops _ _ hops, mapGet_start_self]
    rfl
  · intro ops
    refine build_status_of_present _ _ (mapGet_applyOps_isSome ops _ _ ?_)
    rw [mapGet_start_self]
    rfl

/-- C6 witness: a request with no client uuid, submitted against an empty
tracker, is immediately visible as a Building entry under the generated id. -/
theorem C6_witness :
    mapGet (submit_build [] none ("fresh-id").data ("prog").data [] 3).tracker
        ("fresh-id").data
      = some ⟨("fresh-id").data, ("prog").data, .building, none, 3, none⟩ :=
  (C6_registered_before_return [] none ("fresh-id").data ("prog").data [] 3
    ⟨("fresh-id").data, ("prog").data, ("building").data⟩ rfl).1

/-- C3: a file set violating any Source File Set invariant (too many entries,
or any path failing the pattern, the length bound, the parent-traversal test
or the empty-segment test) makes `build_stage` return an error whose
filesystem-effect trace is empty: neither a file of the set nor a directory
for the job has been created. -/
theorem C3_rejects_before_writes (uuid program_name : Str) (files : Files)
    (h : files.length > maxFileAmount ∨ ∃ f ∈ files, validPath f.1 = false) :
    ∃ msg, build_stage uuid program_name files = .error (msg, []) := by
  unfold build_stage
  by_cases hlen : files.length > maxFileAmount
  · exact ⟨maxFilesMsg, by rw [if_pos hlen]⟩
  · rcases h with h | ⟨f, hf, hv⟩
    · exact absurd h hlen
    · refine ⟨invalidPathMsg, ?_⟩
      have hall : (files.all fun f => validPath f.1) = false := by
        cases hb : files.all fun f => validPath f.1
        · rfl
        · have := List.all_eq_true.mp hb f hf
          rw [hv] at this
          exact absurd this (by simp)
      rw [if_neg hlen,
        if_pos (show (!(files.all fun f => validPath f.1)) = true by rw [hall]; rfl)]

/-- C3 witness: the spec's own scenario, a parent-traversal path, is rejected
with an empty effect trace. -/
theorem C3_witness :
    ∃ msg, build_stage ("j").data ("p").data
        [(("/src/../etc/passwd.rs").data, ("x").data)] = .error (msg, []) :=
  C3_rejects_before_writes ("j").data ("p").data
    [(("/src/../etc/passwd.rs").data, ("x").data)]
    (Or.inr ⟨(("/src/../etc/passwd.rs").data, ("x").data), by simp, by decide⟩)

/-- C7: the claim fails on the code. A path rejection carries the fixed message
"Invalid path": it names neither the offending file (here "bad") nor any
limit. -/
theorem C7_counterexample :
    build_stage ("j").data ("p").data [(("bad").data, ("x").data)]
        = .error (invalidPathMsg, [])
      ∧ containsStr invalidPathMsg ("bad").data = false
      ∧ invalidPathMsg = ("Invalid path").data := by
  exact ⟨rfl, by decide, rfl⟩

/-- C7 (amended): only the file-count rejection names the exceeded limit (its
message contains "64"); every path rejection produces the generic constant
message "Invalid path", which does not identify the offending file. -/
theorem C7_amended (uuid program_name : Str) (files : Files) :
    (files.length > maxFileAmount →
      build_stage uuid program_name files = .error (maxFilesMsg, [])
        ∧ containsStr maxFilesMsg ("64").data = true)
    ∧ (files.length ≤ maxFileAmount → (files.all fun f => validPath f.1) = false →
      build_stage uuid program_name files = .error (invalidPathMsg, [])) := by
  constructor
  · intro hlen
    refine ⟨?_, by decide⟩
    unfold build_stage
    rw [if_pos hlen]
  · intro hlen hall
    unfold build_stage
    rw [if_neg (show ¬ files.length > maxFileAmount by omega),
      if_pos (show (!(files.all fun f => validPath f.1)) = true by rw [hall]; rfl)]

/-- C7 witness: the amended law evaluated at a 65-file set (count message names
the limit) and at a single bad path (generic message). -/
theorem C7_witness :
    (build_stage ("j").data ("p").data
          (List.replicate 65 ((("/src/lib.rs").data, ("x").data)))
        = .error (maxFilesMsg, [])
      ∧ containsStr maxFilesMsg ("64").data = true)
    ∧ build_stage ("j").data ("p").data [(("bad").data, ("x").data)]
        = .error (invalidPathMsg, []) :=
  ⟨(C7_amended ("j").data ("p").data
      (List.replicate 65 ((("/src/lib.rs").data, ("x").data)))).1 (by decide),
   (C7_amended ("j").data ("p").data [(("bad").data, ("x").data)]).2 (by decide) (by decide)⟩

/-- C9: a file set of exactly the maximum allowed count (64) whose paths are
all valid passes validation and is admitted to staging; a set of 65 or more
entries is rejected with the file-amount error and no filesystem effect. -/
theorem C9_boundary (uuid program_name : Str) (files : Files) :
    (files.length = 64 → (files.all fun f => validPath f.1) = true →
      (build_stage uuid program_name files).isOk = true)
    ∧ (files.length ≥ 65 →
      build_stage uuid program_name files = .error (maxFilesMsg, [])) := by
  constructor
  · intro hlen hall
    unfold build_stage
    rw [if_neg (show ¬ files.length > maxFileAmount by simp only [maxFileAmount]; omega),
      if_neg (show ¬ (!(files.all fun f => validPath f.1)) = true by rw [hall]; simp)]
    rfl
  · intro hlen
    unfold build_stage
    rw [if_pos (show files.length > maxFileAmount by simp only [maxFileAmount]; omega)]

/-- C9 witness: 64 copies of a valid path are admitted; 65 are rejected. -/
theorem C9_witness :
    (build_stage ("j").data ("p").data
        (List.replicate 64 ((("/src/lib.rs").data, ("x").data)))).isOk = true
    ∧ build_stage ("j").data ("p").data
        (List.replicate 65 ((("/src/lib.rs").data, ("x").data)))
      = .error (maxFilesMsg, []) :=
  ⟨(C9_boundary ("j").data ("p").data
      (List.replicate 64 ((("/src/lib.rs").data, ("x").data)))).1 (by decide) (by decide),
   (C9_boundary ("j").data ("p").data
      (List.replicate 65 ((("/src/lib.rs").data, ("x").data)))).2 (by decide)⟩

/-- C1: the claim fails on the code. For this spawn-successful build the exit
status is non-zero and the combined diagnostics contain the toolchain's
"Finished release" marker (on stdout), so the claim classifies it Success —
but the route re-derives success from the returned stderr text alone, which
lacks the marker, and the job completes as Failed. -/
theorem C1_counterexample :
    markerFound ⟨[("Finished release [optimized] target(s)").data], [], false⟩ = true
    ∧ ProcResult.exitSuccess ⟨[("Finished release [optimized] target(s)").data], [], false⟩
        = false
    ∧ finalSuccess ⟨[("Finished release [optimized] target(s)").data], [], false⟩ [] = false
    ∧ mapGet (bgFinalize (start_build [] ("j").data ("prog").data 0) ("j").data ("prog").data
          ⟨[("Finished release [optimized] target(s)").data], [], false⟩ [] 1) ("j").data
        = some ⟨("j").data, ("prog").data, .failed, some [], 0, some 1⟩ := by
  exact ⟨by decide, rfl, by decide, by decide⟩

/-- C1 (amended): for a spawn-successful build the final status is computed
solely from the stderr record `build` returns: a non-zero exit whose stderr
carries the "Finished release" marker and no "error: could not compile" line
completes as Success, while any record lacking "Finished" completes as Failed
regardless of exit status and of any marker on stdout; the tracked entry
receives exactly this classification together with the stderr record. -/
theorem C1_amended (pr : ProcResult) (diag : Str) (m : TrackerMap) (u p : Str) (t : Nat) :
    (pr.exitSuccess = false →
      containsStr (accLines [] pr.stderrLines) markerStr = true →
      containsStr (accLines [] pr.stderrLines) ("error: could not compile").data = false →
      finalSuccess pr diag = true)
    ∧ (containsStr (deliveredStderr pr diag) ("Finished").data = false →
      finalSuccess pr diag = false)
    ∧ (∀ i, mapGet m u = some i →
        mapGet (bgFinalize m u p pr diag t) u
          = some { i with
                    status := (if finalSuccess pr diag then BuildStatus.success
                      else BuildStatus.failed)
                    stderr := some (deliveredStderr pr diag)
                    program_name := sanitize p
                    completed_at := some t }) := by
  refine ⟨?_, ?_, ?_⟩
  · intro hexit hmark hecc
    have hfound : markerFound pr = true := by
      unfold markerFound
      rw [hmark]
      simp
    have hdel : deliveredStderr pr diag = accLines [] pr.stderrLines := by
      unfold deliveredStderr
      rw [hfound]
      simp
    have hF : containsStr (accLines [] pr.stderrLines) ("Finished").data = true :=
      containsStr_mono _ markerStr ("Finished").data [] (" release").data (by decide) hmark
    have hR : containsStr (accLines [] pr.stderrLines) ("release").data = true :=
      containsStr_mono _ markerStr ("release").data ("Finished ").data [] (by decide) hmark
    unfold finalSuccess routeClassify
    rw [hdel, hF, hR, hecc]
    rfl
  · intro hnoF
    unfold finalSuccess routeClassify
    rw [hnoF]
    rfl
  · intro i hi
    unfold bgFinalize
    rw [mapGet_complete, hi]
    rfl

/-- C1 witness: the amended law at a failing exit whose stderr carries the
marker — the pipeline classifies it Success. -/
theorem C1_witness :
    finalSuccess ⟨[], [("Finished release [optimized] target(s) in 1s").data], false⟩ [] = true :=
  (C1_amended ⟨[], [("Finished release [optimized] target(s) in 1s").data], false⟩ []
    [] [] [] 0).1 rfl (by decide) (by decide)

/-- C5: the claim fails on the code. With one line "A" on stdout and one line
"B" on stderr, the diagnostics record handed to the tracker is exactly the
stderr text — the stdout line is absent, so the record is not the
concatenation of both streams. -/
theorem C5_counterexample :
    deliveredStderr ⟨[("A").data], [("B").data], true⟩ [] = ("B\n").data
      ∧ containsStr (deliveredStderr ⟨[("A").data], [("B").data], true⟩ [])
          ("A").data = false := by
  exact ⟨by decide, by decide⟩

/-- C5 (amended): the diagnostics record delivered to the tracker is the
concatenation of the stderr lines only, each line newline-terminated, in
arrival order (plus optional pre-build diagnostics in the marker-less failure
case); the stdout lines are read for marker detection but never enter the
record — with no appended diagnostics the record is a function of the stderr
lines alone. -/
theorem C5_amended (pr : ProcResult) :
    deliveredStderr pr [] = (pr.stderrLines.map fun l => l ++ ['\n']).flatten
      ∧ (∀ (outLines : List Str) (e : Bool),
          deliveredStderr ⟨outLines, pr.stderrLines, e⟩ [] = deliveredStderr pr []) := by
  have hj : ∀ q : ProcResult, deliveredStderr q [] = accLines [] q.stderrLines := by
    intro q
    unfold deliveredStderr
    simp
  constructor
  · rw [hj, accLines_eq]
    simp
  · intro o e
    rw [hj, hj]

/-- C4: the claim fails on the code. In an environment where the remote store
is disabled (`USE_GCS` unset) and no local artifact exists, `get_binary` does
not stop after the local scan with NotFound: it still performs the remote
download call (which here fails), because the flag is never consulted during
resolution. -/
theorem C4_counterexample :
    (ResolveEnv.mk false [] fun _ => GcsDownload.err ("dns error").data).useGcs = false
    ∧ localExact (ResolveEnv.mk false [] fun _ => GcsDownload.err ("dns error").data)
        ("j").data (sanitize ("prog").data ++ (".so").data) = none
    ∧ scanDirs (ResolveEnv.mk false [] fun _ => GcsDownload.err ("dns error").data).localDirs
        (sanitize ("prog").data ++ (".so").data) = none
    ∧ (get_binary (ResolveEnv.mk false [] fun _ => GcsDownload.err ("dns error").data)
        ("j").data ("prog").data).remoteAttempted = true := by
  exact ⟨rfl, rfl, rfl, rfl⟩

/-- C4 (amended): artifact resolution never consults `USE_GCS`: `get_binary`
behaves identically under either flag value, and whenever both local tiers
miss it always attempts the remote download; the flag gates only artifact
publication — with it unset no upload task is spawned. -/
theorem C4_amended (env : ResolveEnv) (uuid program_name : Str) (b : Bool) :
    get_binary ⟨b, env.localDirs, env.gcsDownload⟩ uuid program_name
        = get_binary env uuid program_name
    ∧ (localExact env uuid (sanitize program_name ++ (".so").data) = none →
       scanDirs env.localDirs (sanitize program_name ++ (".so").data) = none →
       (get_binary env uuid program_name).remoteAttempted = true)
    ∧ (∀ binaryExists : Bool, publishSpawned false binaryExists = false) := by
  refine ⟨?_, ?_, ?_⟩
  · cases env
    rfl
  · intro h1 h2
    unfold get_binary
    rw [h1, h2]
    cases hg : env.gcsDownload (objectName uuid (sanitize program_name)) <;> rfl
  · intro be
    simp [publishSpawned]

/-- C4 witness: the amended law at an empty local tree — the remote call is
attempted. -/
theorem C4_witness :
    (get_binary (ResolveEnv.mk true [] fun _ => GcsDownload.err ("x").data)
      ("j").data ("prog").data).remoteAttempted = true :=
  (C4_amended (ResolveEnv.mk true [] fun _ => GcsDownload.err ("x").data)
    ("j").data ("prog").data false).2.1 rfl rfl

/-- C8: the claim fails on the code. With the remote store unreachable and no
local artifact, the error deploy surfaces is the storage failure message
("Failed to download from GCS: connection refused"), a distinct internal
error — not the NotBuilt outcome "Program is not built" of a missing
artifact. -/
theorem C8_counterexample :
    deploy (ResolveEnv.mk true [] fun _ => GcsDownload.err ("connection refused").data)
        ("j").data ("prog").data
      = .error (("Failed to download from GCS: connection refused").data)
    ∧ (("Failed to download from GCS: connection refused").data : Str) ≠ notBuiltMsg := by
  exact ⟨rfl, by decide⟩

/-- C8 (amended): a failing remote store does not surface as the NotBuilt
outcome: `get_binary` wraps the download failure as an io error of kind Other
carrying the store's message, and `deploy` rewrites only kind NotFound to
"Program is not built", so the storage failure propagates verbatim as a
distinct error, never equal to the missing-artifact message. -/
theorem C8_amended (env : ResolveEnv) (uuid program_name m : Str)
    (h1 : localExact env uuid (sanitize program_name ++ (".so").data) = none)
    (h2 : scanDirs env.localDirs (sanitize program_name ++ (".so").data) = none)
    (h3 : env.gcsDownload (objectName uuid (sanitize program_name)) = .err m) :
    deploy env uuid program_name = .error (dlFailMsgHead ++ m)
      ∧ dlFailMsgHead ++ m ≠ notBuiltMsg := by
  constructor
  · unfold deploy get_binary
    rw [h1, h2, h3]
  · intro hEq
    have hlen := congrArg List.length hEq
    rw [List.length_append] at hlen
    have hp : dlFailMsgHead.length = 29 := rfl
    have hn : notBuiltMsg.length = 20 := rfl
    omega

/-- C8 witness: the amended law at an unreachable store — deploy surfaces the
storage message, not the NotBuilt outcome. -/
theorem C8_witness :
    deploy (ResolveEnv.mk true [] fun _ => GcsDownload.err ("boom").data)
        ("j").data ("prog").data
      = .error (dlFailMsgHead ++ ("boom").data)
    ∧ dlFailMsgHead ++ ("boom").data ≠ notBuiltMsg :=
  C8_amended (ResolveEnv.mk true [] fun _ => GcsDownload.err ("boom").data)
    ("j").data ("prog").data ("boom").data rfl rfl rfl

end ArchServer
